import Mathlib

/-!
Verification of the customer-analytics aggregation and query engine.

The development shallowly embeds the two AWS Lambda entry points of the
repository:

  * `src/aws/lambda/customer-analytics-api/lambda_function.py` (the Query
    Engine: `/health`, `/customer`, `/metrics`, `/trigger-processing`), and
  * `src/aws/lambda/customer-analytics-processor/lambda_function.py` (the
    Metrics Aggregator: the storage-event path and the direct
    `{action: "aggregate"}` path).

Numbers are modelled exactly.  DynamoDB returns `decimal.Decimal` values,
which are exact rationals; Python `float` is IEEE-754 binary64, whose finite
values are also rationals, and whose operations are "round the exact rational
result to the nearest representable value, ties to even".  We therefore work
with a kernel-computable rational type `Q` and an explicit binary64 rounding
function `flRound`, so that every arithmetic step of the Python code
(`float(Decimal)`, float `+`, `/`, `*`, and Python's `round(x, 2)`) is
represented by a total function on `Q` whose value is the exact rational value
of the float the code produces.  Overflow to infinity and NaN are outside the
model: every quantity reached in the theorems below is far below the binary64
finite range.

External collaborators (DynamoDB, S3, the Lambda invoke API) are passed in as
explicit dependencies returning `Except String`; a `.error` result corresponds
to the collaborator raising an exception in Python, which the handlers' single
`try/except` turns into a 500 response.
-/

set_option maxRecDepth 1000000

/-- Euclid's algorithm on naturals, written with explicit fuel so that it
reduces inside the kernel (the first argument strictly decreases, so fuel
`m + 1` always suffices for `gcdFuel fuel m n`). -/
def gcdFuel : Nat → Nat → Nat → Nat
  | 0, _, n => n
  | fuel + 1, m, n => if m = 0 then n else gcdFuel fuel (n % m) m

/-- Greatest common divisor, kernel-computable. -/
def ngcd (m n : Nat) : Nat := gcdFuel (m + 1) m n

/-- Floor base-2 logarithm, written with explicit fuel (`n` halves each step,
so fuel `n` suffices). -/
def log2Fuel : Nat → Nat → Nat
  | 0, _ => 0
  | fuel + 1, n => if 2 ≤ n then log2Fuel fuel (n / 2) + 1 else 0

/-- Floor base-2 logarithm: for `n ≥ 1`, `2 ^ nlog2 n ≤ n < 2 ^ (nlog2 n + 1)`. -/
def nlog2 (n : Nat) : Nat := log2Fuel n n

/-- Ceiling base-2 logarithm: for `n ≥ 1`, the least `c` with `n ≤ 2 ^ c`. -/
def nclog2 (n : Nat) : Nat := if n ≤ 1 then 0 else nlog2 (n - 1) + 1

/-- An exact rational number in lowest terms with positive denominator.
All values of `Q` appearing in this development are produced by the smart
constructor `mkQ` (or are already canonical literals), so structural equality
agrees with equality of the represented rational values. -/
structure Q where
  num : Int
  den : Int
  deriving DecidableEq, Repr

/-- Builds the canonical representative of `n / d` (for `d ≠ 0`): positive
denominator, fraction in lowest terms. -/
def mkQ (n d : Int) : Q :=
  let s : Int := if d < 0 then -1 else 1
  let n2 := s * n
  let d2 := s * d
  let g : Int := (ngcd n2.natAbs d2.natAbs : Nat)
  if g = 0 then ⟨0, 1⟩ else ⟨n2 / g, d2 / g⟩

/-- Exact addition of rationals. -/
def qAdd (a b : Q) : Q := mkQ (a.num * b.den + b.num * a.den) (a.den * b.den)

/-- Exact subtraction of rationals. -/
def qSub (a b : Q) : Q := mkQ (a.num * b.den - b.num * a.den) (a.den * b.den)

/-- Exact multiplication of rationals. -/
def qMul (a b : Q) : Q := mkQ (a.num * b.num) (a.den * b.den)

/-- Exact division of rationals (the value is junk when `b = 0`; every call
site below is guarded, mirroring the guards in the Python code). -/
def qDiv (a b : Q) : Q := mkQ (a.num * b.den) (a.den * b.num)

/-- Exact negation (canonical inputs stay canonical). -/
def qNeg (a : Q) : Q := ⟨-a.num, a.den⟩

/-- The rational `n / 1`. -/
def qOfInt (n : Int) : Q := ⟨n, 1⟩

/-- Strict comparison of canonical rationals (denominators positive). -/
def qLtb (a b : Q) : Bool := decide (a.num * b.den < b.num * a.den)

/-- Floor of a canonical rational. -/
def qFloor (a : Q) : Int := Int.fdiv a.num a.den

/-- Ceiling of a canonical rational. -/
def qCeil (a : Q) : Int := -(Int.fdiv (-a.num) a.den)

/-- The rational `2 ^ e` for an integer exponent. -/
def pow2 (e : Int) : Q := if 0 ≤ e then ⟨2 ^ e.toNat, 1⟩ else ⟨1, 2 ^ (-e).toNat⟩

/-- Floor base-2 logarithm of a positive canonical rational. -/
def qIlog2 (a : Q) : Int :=
  if qLtb a ⟨1, 1⟩ then -(nclog2 (qCeil (qDiv ⟨1, 1⟩ a)).toNat : Int)
  else (nlog2 (qFloor a).toNat : Int)

/-- Rounds an exact rational to the nearest IEEE-754 binary64 value (ties to
even), returning that value as an exact rational.  This is the semantics of
every CPython `float` operation: `float(Decimal(...))` is `flRound` of the
decimal's value, and each float `+`, `*`, `/` yields `flRound` of the exact
rational result.  Gradual underflow is modelled (unit in the last place is
bounded below by `2 ^ (-1074)`); overflow to infinity is outside the model. -/
def flRound (x : Q) : Q :=
  if x.num = 0 then ⟨0, 1⟩ else
  let neg := qLtb x ⟨0, 1⟩
  let a := if neg then qNeg x else x
  let e : Int := max (-1074) (qIlog2 a - 52)
  let u := pow2 e
  let q := qDiv a u
  let n := qFloor q
  let r := qSub q (qOfInt n)
  let m := if qLtb r ⟨1, 2⟩ then n
           else if qLtb ⟨1, 2⟩ r then n + 1
           else if n % 2 = 0 then n else n + 1
  let v := qMul (qOfInt m) u
  if neg then qNeg v else v

/-- Python float addition: round the exact sum. -/
def flAdd (a b : Q) : Q := flRound (qAdd a b)

/-- Python float multiplication: round the exact product. -/
def flMul (a b : Q) : Q := flRound (qMul a b)

/-- Python float (true) division: round the exact quotient.  CPython's
`int / int` is also correctly rounded, so this models it as well. -/
def flDiv (a b : Q) : Q := flRound (qDiv a b)

/-- Rounds a rational to the nearest integer, ties to even. -/
def rhe (x : Q) : Int :=
  let n := qFloor x
  let r := qSub x (qOfInt n)
  if qLtb r ⟨1, 2⟩ then n
  else if qLtb ⟨1, 2⟩ r then n + 1
  else if n % 2 = 0 then n else n + 1

/-- Python's built-in `round(x, 2)` on a float `x`: the exact value of `x` is
rounded to two decimal places (ties to even, decided on the exact binary
value), and the resulting decimal is returned as the nearest float. -/
def pyRound2 (x : Q) : Q := flRound (mkQ (rhe (qMul x ⟨100, 1⟩)) 100)

/-- A scalar JSON value as produced by the handlers: string, number or
boolean.  Numbers are identified with their exact rational value. -/
inductive JLeaf where
  | jstr (s : String) : JLeaf
  | jnum (q : Q) : JLeaf
  | jb (b : Bool) : JLeaf
  deriving DecidableEq, Repr

/-- A flat JSON object (such as one serialized session record). -/
abbrev JRecord := List (String × JLeaf)

/-- A JSON value appearing inside a response body: a scalar, or an array of
flat objects (the `sessions` array). -/
inductive JVal where
  | leaf (l : JLeaf) : JVal
  | arr (rs : List JRecord) : JVal
  deriving DecidableEq

/-- A JSON response body: the top-level object, as an association list in the
order the Python dict literal is written. -/
abbrev JBody := List (String × JVal)

/-- A Lambda proxy response: status code, headers, and the JSON body that the
code passes through `json.dumps`. -/
structure HttpResponse where
  statusCode : Nat
  headers : List (String × String)
  body : JBody
  deriving DecidableEq

/-- A session record as stored in the DynamoDB table (partition key
`customer_id`, numeric sort key `session_timestamp`).  `converted` and
`cart_value` may be absent; DynamoDB numbers are exact decimals, modelled by
`Q`.  Only the attributes the core logic reads are modelled. -/
structure Item where
  customer_id : String
  session_timestamp : Int
  converted : Option Bool
  cart_value : Option Q
  deriving DecidableEq

/-- Serialization of one item inside the `/customer` response: the
`DecimalEncoder` in the API lambda converts every `Decimal` to `float(o)`,
i.e. `flRound`; booleans pass through; absent attributes are absent keys. -/
def itemRecord (it : Item) : JRecord :=
  [("customer_id", JLeaf.jstr it.customer_id),
   ("session_timestamp", JLeaf.jnum (flRound ⟨it.session_timestamp, 1⟩))]
  ++ (match it.converted with
      | some b => [("converted", JLeaf.jb b)]
      | none => [])
  ++ (match it.cart_value with
      | some v => [("cart_value", JLeaf.jnum (flRound v))]
      | none => [])

/-- Sort-key comparison used by the store model. -/
def tsLe (a b : Item) : Bool := decide (a.session_timestamp ≤ b.session_timestamp)

/-- Inserts an item into a list sorted by `tsLe`, keeping it sorted. -/
def insertTs (x : Item) : List Item → List Item
  | [] => [x]
  | y :: ys => if tsLe x y then x :: y :: ys else y :: insertTs x ys

/-- Insertion sort by ascending `session_timestamp`. -/
def sortTs : List Item → List Item
  | [] => []
  | x :: xs => insertTs x (sortTs xs)

/-- The Record Store's `Query` operation, modelled per DynamoDB's documented
semantics for the table's key schema (`customer_id` HASH,
`session_timestamp` RANGE): all items of the requested partition, in
ascending sort-key order (`ScanIndexForward` defaults to true). -/
def dynamoQuery (table : List Item) (cid : String) : List Item :=
  sortTs (table.filter (fun it => it.customer_id = cid))

/-- The Record Store's `Scan` operation with a `Limit`: the first `limit`
items of the table in storage order. -/
def dynamoScan (table : List Item) (limit : Nat) : List Item := table.take limit

/-- Python's `data.split('\n')` on the character sequence of `data`: the
maximal segments between newline separators.  The result is never empty
(splitting the empty string gives one empty segment), and its length is one
more than the number of newline characters. -/
def splitNl : List Char → List (List Char)
  | [] => [[]]
  | c :: cs =>
      match splitNl cs with
      | [] => [[]]
      | seg :: segs => if c = '\n' then [] :: seg :: segs else (c :: seg) :: segs

/-- Python truthiness of `item.get('converted')`: `None` (absent) and `False`
are falsy, `True` is truthy. -/
def convertedTruthy (it : Item) : Bool := it.converted.getD false

/-- Number of converted sessions in a batch: both lambdas compute
`sum(1 for item in items if item.get('converted'))`. -/
def conversions (items : List Item) : Nat := items.countP convertedTruthy

/-- The float value of `float(item.get('cart_value', 0))`:
the stored decimal rounded to binary64, or `0.0` when absent. -/
def cartFloat (it : Item) : Q := flRound (it.cart_value.getD ⟨0, 1⟩)

/-- The API lambda's `total_revenue = sum(float(item.get('cart_value', 0)) for
item in items)`: a left fold of float additions starting from `0`. -/
def totalRevenueRaw (items : List Item) : Q :=
  items.foldl (fun acc it => flRound (qAdd acc (cartFloat it))) ⟨0, 1⟩

/-- The unrounded conversion rate
`(conversions / total_sessions * 100) if total_sessions > 0 else 0`,
as computed with Python float division and multiplication. -/
def conversionRateRaw (items : List Item) : Q :=
  if items.length = 0 then ⟨0, 1⟩
  else flMul (flDiv (qOfInt (conversions items)) (qOfInt items.length)) ⟨100, 1⟩

/-- The unrounded average cart value
`(total_revenue / conversions) if conversions > 0 else 0`, where
`total_revenue` is the raw (unrounded) float sum. -/
def avgCartRaw (items : List Item) : Q :=
  if conversions items = 0 then ⟨0, 1⟩
  else flDiv (totalRevenueRaw items) (qOfInt (conversions items))

/-- The metrics dict built by the API lambda's `/metrics` branch
(`customer-analytics-api/lambda_function.py`, lines 58-66). -/
def apiMetricsBody (items : List Item) (now : String) : JBody :=
  [("timestamp", JVal.leaf (JLeaf.jstr now)),
   ("total_sessions", JVal.leaf (JLeaf.jnum ⟨items.length, 1⟩)),
   ("conversions", JVal.leaf (JLeaf.jnum ⟨conversions items, 1⟩)),
   ("conversion_rate", JVal.leaf (JLeaf.jnum (pyRound2 (conversionRateRaw items)))),
   ("total_revenue", JVal.leaf (JLeaf.jnum (pyRound2 (totalRevenueRaw items)))),
   ("avg_cart_value", JVal.leaf (JLeaf.jnum (pyRound2 (avgCartRaw items))))]

/-- The metrics dict built by the processor lambda's aggregate branch
(`customer-analytics-processor/lambda_function.py`, lines 47-55): note the
field name `total_conversions`, the absence of revenue fields, and the
unrounded rate. -/
def procMetricsBody (items : List Item) (now : String) : JBody :=
  [("timestamp", JVal.leaf (JLeaf.jstr now)),
   ("total_sessions", JVal.leaf (JLeaf.jnum ⟨items.length, 1⟩)),
   ("total_conversions", JVal.leaf (JLeaf.jnum ⟨conversions items, 1⟩)),
   ("conversion_rate", JVal.leaf (JLeaf.jnum (conversionRateRaw items)))]

/-- A 500 response with body `{"error": msg}`: what either lambda's
`except Exception` clause returns. -/
def err500 (msg : String) : HttpResponse :=
  ⟨500, [], [("error", JVal.leaf (JLeaf.jstr msg))]⟩

namespace Api

/-- The shape of an API Gateway proxy event as far as the handler reads it:
`event.get('httpMethod', 'GET')`, `event.get('path', '/')`, and
`event.get('queryStringParameters', {}) or {}` (absent and `None` both give
the empty mapping). -/
structure Event where
  httpMethod : Option String
  path : Option String
  queryStringParameters : Option (List (String × String))

/-- Looks a key up in a query-string mapping (`params.get(key)`). -/
def getParam (ps : List (String × String)) (k : String) : Option String :=
  (ps.find? (fun kv => kv.1 = k)).map (fun kv => kv.2)

/-- The API lambda's external collaborators.  `query cid` is
`table.query(KeyConditionExpression='customer_id = :cid', ...)`; `scan n` is
`table.scan(Limit=n)`; `invokeProcessor` is the async `lambda.invoke` call
returning the request id; `now` is `datetime.now().isoformat()`.  A `.error`
result stands for the call raising an exception. -/
structure Deps where
  query : String → Except String (List Item)
  scan : Nat → Except String (List Item)
  invokeProcessor : Except String String
  now : String

/-- The standard JSON content-type header emitted on the 200 responses. -/
def jsonHeaders : List (String × String) := [("Content-Type", "application/json")]

/-- Shallow embedding of `lambda_handler` of
`src/aws/lambda/customer-analytics-api/lambda_function.py`.  The Python
try/except wrapping the whole body is represented by the `.error` branches,
each returning `err500`. -/
def lambda_handler (event : Event) (deps : Deps) : HttpResponse :=
  let http_method := event.httpMethod.getD "GET"
  let path := event.path.getD "/"
  if path = "/health" then
    ⟨200, jsonHeaders,
      [("status", JVal.leaf (JLeaf.jstr "healthy")),
       ("timestamp", JVal.leaf (JLeaf.jstr deps.now))]⟩
  else if path = "/customer" ∧ http_method = "GET" then
    match getParam (event.queryStringParameters.getD []) "customer_id" with
    | none =>
        ⟨400, [], [("error", JVal.leaf (JLeaf.jstr "customer_id parameter required"))]⟩
    | some cid =>
        if cid = "" then
          ⟨400, [], [("error", JVal.leaf (JLeaf.jstr "customer_id parameter required"))]⟩
        else
          match deps.query cid with
          | .error msg => err500 msg
          | .ok items =>
              ⟨200, jsonHeaders,
                [("customer_id", JVal.leaf (JLeaf.jstr cid)),
                 ("sessions", JVal.arr (items.map itemRecord)),
                 ("total_sessions", JVal.leaf (JLeaf.jnum ⟨items.length, 1⟩))]⟩
  else if path = "/metrics" ∧ http_method = "GET" then
    match deps.scan 100 with
    | .error msg => err500 msg
    | .ok items => ⟨200, jsonHeaders, apiMetricsBody items deps.now⟩
  else if path = "/trigger-processing" ∧ http_method = "POST" then
    match deps.invokeProcessor with
    | .error msg => err500 msg
    | .ok requestId =>
        ⟨202, [],
          [("message", JVal.leaf (JLeaf.jstr "Processing triggered")),
           ("requestId", JVal.leaf (JLeaf.jstr requestId))]⟩
  else
    ⟨404, [], [("error", JVal.leaf (JLeaf.jstr "Endpoint not found"))]⟩

end Api

namespace Processor

/-- One entry of the event's `Records` list: its `s3` member, when present,
names a bucket and an object key. -/
structure RecordEntry where
  s3 : Option (String × String)
  deriving DecidableEq

/-- The shape of a processor event as far as the handler reads it: the
optional `Records` list and the optional `action` string. -/
structure Event where
  records : Option (List RecordEntry)
  action : Option String

/-- The processor lambda's external collaborators.  `s3Read b k` is
`s3.get_object(Bucket=b, Key=k)` followed by reading and UTF-8 decoding the
body; `scan n` is `table.scan(Limit=n)`; `putObject` is the
`s3.put_object(...)` publishing the metrics snapshot; `now` is
`datetime.now().isoformat()` and `nowKey` the `strftime` stamp used in the
object key.  A `.error` result stands for the call raising an exception. -/
structure Deps where
  s3Read : String → String → Except String String
  scan : Nat → Except String (List Item)
  putObject : Except String Unit
  now : String
  nowKey : String

/-- The result of one invocation: the returned response, the list of objects
written to S3 (key and JSON content), and the list of items written to the
Record Store (the DynamoDB table).  The handler never writes to the table,
so `storeWrites` is `[]` on every path; tracking it makes that an explicit
conclusion rather than an unstated omission. -/
structure Result where
  response : HttpResponse
  s3Writes : List (String × JBody)
  storeWrites : List Item
  deriving DecidableEq

/-- Shallow embedding of `lambda_handler` of
`src/aws/lambda/customer-analytics-processor/lambda_function.py`.  The loop
over `event['Records']` returns on the first entry having an `s3` member and
otherwise falls through to the `action` check; the whole body is wrapped in
one try/except represented by the `.error` branches. -/
def lambda_handler (event : Event) (deps : Deps) : Result :=
  match (event.records.getD []).findSome? (fun e => e.s3) with
  | some (bucket, key) =>
      match deps.s3Read bucket key with
      | .error msg => ⟨err500 msg, [], []⟩
      | .ok data =>
          let record_count := (splitNl data.data).length - 1
          ⟨⟨200, [],
            [("message", JVal.leaf (JLeaf.jstr
              ("Processed " ++ toString record_count ++ " records from " ++ key)))]⟩,
           [], []⟩
  | none =>
      if event.action = some "aggregate" then
        match deps.scan 100 with
        | .error msg => ⟨err500 msg, [], []⟩
        | .ok items =>
            let metrics := procMetricsBody items deps.now
            match deps.putObject with
            | .error msg => ⟨err500 msg, [], []⟩
            | .ok _ =>
                ⟨⟨200, [], metrics⟩,
                 [("metrics/" ++ deps.nowKey ++ "_metrics.json", metrics)], []⟩
      else
        ⟨⟨200, [], [("message", JVal.leaf (JLeaf.jstr "Data processor ready"))]⟩, [], []⟩

end Processor

/-- The exact (infinite-precision) sum of the batch's `cart_value` amounts,
absent values contributing `0`.  This is the accumulation the specification
prescribes ("all currency sums accumulate in decimal (not floating binary)
arithmetic internally"); it is the reference the code's float accumulation is
compared against. -/
def exactCartSum (items : List Item) : Q :=
  items.foldl (fun acc it => qAdd acc (it.cart_value.getD ⟨0, 1⟩)) ⟨0, 1⟩

/-- Exact decimal rounding to two places (ties to even), with no further
representation loss — the output-field rounding the specification describes. -/
def decRound2 (x : Q) : Q := mkQ (rhe (qMul x ⟨100, 1⟩)) 100

/-- Follows the spec's words, for the refinement comparison of claim C3:
`total_revenue` computed by exact decimal accumulation with rounding to two
decimal places applied only at the output field. -/
def specTotalRevenue (items : List Item) : Q := decRound2 (exactCartSum items)

/-- A converted session with cart value `150` (the spec's scenario batch). -/
def itemConv150 : Item := ⟨"cust-1", 10, some true, some ⟨150, 1⟩⟩

/-- A non-converted session (`converted = False`). -/
def itemNotConv : Item := ⟨"cust-2", 20, some false, none⟩

/-- A session with no `converted` attribute at all. -/
def itemNoFlag : Item := ⟨"cust-3", 30, none, none⟩

/-- The spec's scenario batch: three sessions, one converted with value 150. -/
def batchScenario : List Item := [itemConv150, itemNotConv, itemNoFlag]

/-- Converted session with cart value `33.333`. -/
def item33a : Item := ⟨"r1", 1, some true, some ⟨33333, 1000⟩⟩

/-- Second converted session with cart value `33.333`. -/
def item33b : Item := ⟨"r2", 2, some true, some ⟨33333, 1000⟩⟩

/-- Converted session with cart value `33.334`. -/
def item334 : Item := ⟨"r3", 3, some true, some ⟨33334, 1000⟩⟩

/-- The spec's rounding test batch: cart values `[33.333, 33.333, 33.334]`,
all converted. -/
def batchRounding : List Item := [item33a, item33b, item334]

/-- Converted session with cart value `10^15` (exactly representable in
binary64). -/
def itemBig : Item := ⟨"big", 1, some true, some ⟨1000000000000000, 1⟩⟩

/-- Converted session with cart value `0.03`: smaller than half a unit in the
last place of `10^15`, so a float addition onto `10^15` loses it entirely. -/
def itemCent3 : Item := ⟨"c03", 2, some true, some ⟨3, 100⟩⟩

/-- The batch refuting exact-decimal accumulation: `[10^15, 0.03]`. -/
def batchAbsorb : List Item := [itemBig, itemCent3]

/-- Converted session with cart value `0.04` (customer `p1`). -/
def itemCent4a : Item := ⟨"p1", 1, some true, some ⟨4, 100⟩⟩

/-- Converted session with cart value `0.04` (customer `p2`). -/
def itemCent4b : Item := ⟨"p2", 2, some true, some ⟨4, 100⟩⟩

/-- Order-dependence batch, big value first: `[10^15, 0.04, 0.04]`.  Both
`0.04` additions are individually absorbed by `10^15`. -/
def batchOrderA : List Item := [itemBig, itemCent4a, itemCent4b]

/-- The same three records, big value last: `[0.04, 0.04, 10^15]`.  The two
`0.04`s first accumulate to `0.08`, which exceeds half an ulp of `10^15` and
survives the final addition. -/
def batchOrderB : List Item := [itemCent4a, itemCent4b, itemBig]

/-- Processor event for the direct-action aggregation trigger. -/
def aggregateEvent : Processor.Event := ⟨none, some "aggregate"⟩

/-- Processor dependencies for the publish-failure scenario: the table scan
succeeds (returning the scenario batch), and the snapshot publish
(`s3.put_object`) raises. -/
def publishFailDeps : Processor.Deps :=
  ⟨fun _ _ => .error "no such object", fun _ => .ok batchScenario,
   .error "S3 put failed", "2025-01-01T00:00:00", "20250101_000000"⟩

/-- API event for `GET /metrics`. -/
def metricsEvent : Api.Event := ⟨some "GET", some "/metrics", none⟩

/-- API dependencies whose store calls all raise. -/
def failingApiDeps : Api.Deps :=
  ⟨fun _ => .error "store unreachable", fun _ => .error "store unreachable",
   .error "dispatch failed", "2025-01-01T00:00:00"⟩

/-- API dependencies reading from a store that holds the scenario batch. -/
def scenarioApiDeps : Api.Deps :=
  ⟨fun cid => .ok (dynamoQuery batchScenario cid),
   fun n => .ok (dynamoScan batchScenario n), .ok "req-1", "2025-01-01T00:00:00"⟩

/-- Processor dependencies reading from the same store, with publishing
succeeding. -/
def scenarioProcDeps : Processor.Deps :=
  ⟨fun _ _ => .error "unused", fun n => .ok (dynamoScan batchScenario n),
   .ok (), "2025-01-01T00:00:00", "20250101_000000"⟩

/-- Processor dependencies serving a three-line CSV object. -/
def csvDeps : Processor.Deps :=
  ⟨fun _ _ => .ok "header\nrow1\nrow2", fun _ => .ok [], .ok (), "T", "K"⟩

/-- A storage-event notification: one entry without `s3`, then one naming a
bucket and key. -/
def s3Event : Processor.Event :=
  ⟨some [⟨none⟩, ⟨some ("analytics-bucket", "data.csv")⟩], none⟩

/-- An event with a record list holding no `s3` entry and an unrecognized
action. -/
def unknownEvent : Processor.Event := ⟨some [⟨none⟩], some "reindex"⟩

/-- Inert processor dependencies. -/
def idleDeps : Processor.Deps :=
  ⟨fun _ _ => .error "unused", fun _ => .ok [], .ok (), "T", "K"⟩

/-- A store with two customers; customer `c1` has two sessions stored out of
timestamp order. -/
def storeSample : List Item :=
  [⟨"c1", 5, some true, some ⟨10, 1⟩⟩, ⟨"c2", 1, none, none⟩,
   ⟨"c1", 2, some false, none⟩]

theorem tsLe_trans {a b c : Item} (hab : tsLe a b = true) (hbc : tsLe b c = true) :
    tsLe a c = true := by
  simp only [tsLe, decide_eq_true_eq] at *
  omega

theorem tsLe_total_of_not {a b : Item} (h : ¬ tsLe a b = true) : tsLe b a = true := by
  simp only [tsLe, decide_eq_true_eq] at *
  omega

theorem insertTs_perm (x : Item) (l : List Item) : (insertTs x l).Perm (x :: l) := by
  induction l with
  | nil => exact List.Perm.refl _
  | cons y ys ih =>
      unfold insertTs
      by_cases h : tsLe x y = true
      · simp [h]
      · simp only [h, if_false]
        exact (ih.cons y).trans (List.Perm.swap x y ys)

theorem insertTs_pairwise (x : Item) (l : List Item)
    (hl : l.Pairwise (fun a b => tsLe a b = true)) :
    (insertTs x l).Pairwise (fun a b => tsLe a b = true) := by
  induction l with
  | nil => simp [insertTs]
  | cons y ys ih =>
      rcases List.pairwise_cons.mp hl with ⟨hy, hys⟩
      unfold insertTs
      by_cases h : tsLe x y = true
      · simp only [h, if_true]
        refine List.pairwise_cons.mpr ⟨?_, hl⟩
        intro b hb
        rcases List.mem_cons.mp hb with hb1 | hb1
        · exact hb1 ▸ h
        · exact tsLe_trans h (hy b hb1)
      · simp only [h, if_false]
        refine List.pairwise_cons.mpr ⟨?_, ih hys⟩
        intro b hb
        have hb2 : b ∈ x :: ys := (insertTs_perm x ys).mem_iff.mp hb
        rcases List.mem_cons.mp hb2 with hb3 | hb3
        · exact hb3 ▸ tsLe_total_of_not h
        · exact hy b hb3

theorem sortTs_perm (l : List Item) : (sortTs l).Perm l := by
  induction l with
  | nil => exact List.Perm.refl _
  | cons x xs ih => exact (insertTs_perm x (sortTs xs)).trans (ih.cons x)

theorem sortTs_pairwise (l : List Item) :
    (sortTs l).Pairwise (fun a b => tsLe a b = true) := by
  induction l with
  | nil => simp [sortTs]
  | cons x xs ih => exact insertTs_pairwise x (sortTs xs) ih

/-- C1: the claim states that when the `{action: "aggregate"}` snapshot has
been computed and the publish step fails, the handler reports the failure
without discarding the snapshot, which "remains valid and returnable to the
trigger's caller".  On the code this is false: the single `try/except`
converts the publish exception into a 500 response whose body holds only the
error message, so at the concrete trigger below the computed snapshot appears
nowhere in the reply. -/
theorem C1_counterexample :
    Processor.lambda_handler aggregateEvent publishFailDeps =
      ⟨err500 "S3 put failed", [], []⟩ ∧
    (Processor.lambda_handler aggregateEvent publishFailDeps).response.body ≠
      procMetricsBody batchScenario "2025-01-01T00:00:00" :=
  ⟨by decide, by decide⟩

/-- C1 (amended): for every direct-action aggregation trigger, if the metrics
snapshot has been successfully computed (the scan returned a batch) and the
publish step fails, the handler reports the failure to the caller as a 500
response with body `{"error": msg}`; the computed snapshot is discarded — it
is not part of the response — and nothing is written. -/
theorem C1_publish_failure_reported (ev : Processor.Event) (deps : Processor.Deps)
    (items : List Item) (msg : String)
    (hrec : (ev.records.getD []).findSome? (fun e => e.s3) = none)
    (hact : ev.action = some "aggregate")
    (hscan : deps.scan 100 = .ok items)
    (hput : deps.putObject = .error msg) :
    Processor.lambda_handler ev deps = ⟨err500 msg, [], []⟩ := by
  unfold Processor.lambda_handler
  rw [hrec]
  simp [hact, hscan, hput]

/-- C1 witness: the amended theorem applied to the concrete publish-failure
scenario. -/
theorem C1_witness :
    Processor.lambda_handler aggregateEvent publishFailDeps =
      ⟨err500 "S3 put failed", [], []⟩ :=
  C1_publish_failure_reported aggregateEvent publishFailDeps batchScenario
    "S3 put failed" rfl rfl rfl rfl

/-- C5: for a storage-event notification naming a bucket and object, the
processor reads that object's content and reports a record count equal to the
number of newline-separated segments of the content minus one header line,
and this path writes nothing: no S3 object and, in particular, no item to the
Record Store. -/
theorem C5_storage_event (entries : List Processor.RecordEntry) (act : Option String)
    (bucket key data : String) (deps : Processor.Deps)
    (hfind : entries.findSome? (fun e => e.s3) = some (bucket, key))
    (hread : deps.s3Read bucket key = .ok data) :
    Processor.lambda_handler ⟨some entries, act⟩ deps =
      ⟨⟨200, [],
        [("message", JVal.leaf (JLeaf.jstr
          ("Processed " ++ toString ((splitNl data.data).length - 1) ++
            " records from " ++ key)))]⟩,
       [], []⟩ := by
  unfold Processor.lambda_handler
  simp only [Option.getD_some, hfind, hread]

/-- C5 witness: a three-line object (header plus two rows) is reported as two
records and nothing is written. -/
theorem C5_witness :
    Processor.lambda_handler s3Event csvDeps =
      ⟨⟨200, [],
        [("message", JVal.leaf (JLeaf.jstr "Processed 2 records from data.csv"))]⟩,
       [], []⟩ :=
  C5_storage_event [⟨none⟩, ⟨some ("analytics-bucket", "data.csv")⟩] none
    "analytics-bucket" "data.csv" "header\nrow1\nrow2" csvDeps rfl rfl

/-- C6: a record whose `converted` attribute is absent or `False` is counted
in `total_sessions` (the batch length) but not in the conversions count, in
the shared aggregation used by both handlers. -/
theorem C6_missing_converted_not_counted (items : List Item) (it : Item)
    (h : it.converted = none ∨ it.converted = some false) :
    conversions (items ++ [it]) = conversions items ∧
    (items ++ [it]).length = items.length + 1 := by
  have hf : convertedTruthy it = false := by
    rcases h with h | h <;> simp [convertedTruthy, h]
  constructor
  · unfold conversions
    rw [List.countP_append]
    simp [List.countP_cons, hf]
  · simp

/-- C6 witness: appending a record with no `converted` attribute leaves the
conversion count unchanged and grows the session count by one. -/
theorem C6_witness :
    conversions ([itemConv150] ++ [itemNoFlag]) = conversions [itemConv150] ∧
    ([itemConv150] ++ [itemNoFlag]).length = [itemConv150].length + 1 :=
  C6_missing_converted_not_counted [itemConv150] itemNoFlag (Or.inl rfl)

/-- C7: aggregating the empty batch yields the all-zero snapshot — every
count, the rate, the revenue and the average are `0` — and the computation is
total: the `total_sessions > 0` and `conversions > 0` guards make the rate
and average `0` rather than dividing by zero. -/
theorem C7_empty_batch (now : String) :
    apiMetricsBody [] now =
      [("timestamp", JVal.leaf (JLeaf.jstr now)),
       ("total_sessions", JVal.leaf (JLeaf.jnum ⟨0, 1⟩)),
       ("conversions", JVal.leaf (JLeaf.jnum ⟨0, 1⟩)),
       ("conversion_rate", JVal.leaf (JLeaf.jnum ⟨0, 1⟩)),
       ("total_revenue", JVal.leaf (JLeaf.jnum ⟨0, 1⟩)),
       ("avg_cart_value", JVal.leaf (JLeaf.jnum ⟨0, 1⟩))] := rfl

/-- C10: an event that carries no `s3` record and whose `action` is not
`"aggregate"` — including unrecognized actions and record lists without an
`s3` member — is answered with 200 `{"message": "Data processor ready"}`,
never an error, and nothing is read or written. -/
theorem C10_unrecognized_inputs_ready (ev : Processor.Event) (deps : Processor.Deps)
    (hrec : ∀ e ∈ ev.records.getD [], e.s3 = none)
    (hact : ev.action ≠ some "aggregate") :
    Processor.lambda_handler ev deps =
      ⟨⟨200, [], [("message", JVal.leaf (JLeaf.jstr "Data processor ready"))]⟩,
       [], []⟩ := by
  unfold Processor.lambda_handler
  have hf : (ev.records.getD []).findSome? (fun e => e.s3) = none :=
    List.findSome?_eq_none_iff.mpr hrec
  rw [hf]
  simp [hact]

/-- C10 witness: a record list without `s3` entries combined with the
unrecognized action `"reindex"` is accepted with the ready message. -/
theorem C10_witness :
    Processor.lambda_handler unknownEvent idleDeps =
      ⟨⟨200, [], [("message", JVal.leaf (JLeaf.jstr "Data processor ready"))]⟩,
       [], []⟩ :=
  C10_unrecognized_inputs_ready unknownEvent idleDeps (by decide) (by decide)

/-- C2: the claim that the `GET /metrics` path and the `{action: "aggregate"}`
path compute identical snapshots (same fields, same names, same values apart
from the timestamp) is false on the code.  Reading the same store and using
the same timestamp, the two handlers' bodies differ: the processor names its
count `total_conversions`, omits `total_revenue` and `avg_cart_value`
entirely, and reports the conversion rate unrounded. -/
theorem C2_counterexample :
    (Api.lambda_handler metricsEvent scenarioApiDeps).body ≠
      (Processor.lambda_handler aggregateEvent scenarioProcDeps).response.body := by
  decide

/-- C2 (amended): both paths read the store through the same `scan(Limit=100)`
and agree on the shared numeric content — the session count and the
conversion count (the latter under the name `conversions` in the API and
`total_conversions` in the processor), with the API's `conversion_rate` equal
to the processor's rate rounded to two decimals — but the processor's
snapshot has no `total_revenue` or `avg_cart_value` field and leaves its rate
unrounded. -/
theorem C2_shared_aggregation (items : List Item) (now : String) :
    List.lookup "total_sessions" (apiMetricsBody items now) =
      List.lookup "total_sessions" (procMetricsBody items now) ∧
    List.lookup "conversions" (apiMetricsBody items now) =
      some (JVal.leaf (JLeaf.jnum ⟨conversions items, 1⟩)) ∧
    List.lookup "total_conversions" (procMetricsBody items now) =
      some (JVal.leaf (JLeaf.jnum ⟨conversions items, 1⟩)) ∧
    List.lookup "conversion_rate" (apiMetricsBody items now) =
      some (JVal.leaf (JLeaf.jnum (pyRound2 (conversionRateRaw items)))) ∧
    List.lookup "conversion_rate" (procMetricsBody items now) =
      some (JVal.leaf (JLeaf.jnum (conversionRateRaw items))) ∧
    List.lookup "total_revenue" (procMetricsBody items now) = none ∧
    List.lookup "avg_cart_value" (procMetricsBody items now) = none :=
  ⟨rfl, rfl, rfl, rfl, rfl, rfl, rfl⟩

/-- C3: the claim that currency sums accumulate in exact decimal arithmetic
is false on the code: `total_revenue` is accumulated with Python binary
floats (`sum(float(item.get('cart_value', 0)) ...)`).  On the batch
`[10^15, 0.03]` (both converted) the float addition absorbs the `0.03`
entirely, so the output is `10^15.00` where exact decimal accumulation
rounded once at the output would give `10^15 + 0.03`. -/
theorem C3_counterexample :
    List.lookup "total_revenue" (apiMetricsBody batchAbsorb "T") =
      some (JVal.leaf (JLeaf.jnum ⟨1000000000000000, 1⟩)) ∧
    specTotalRevenue batchAbsorb = ⟨100000000000000003, 100⟩ ∧
    List.lookup "total_revenue" (apiMetricsBody batchAbsorb "T") ≠
      some (JVal.leaf (JLeaf.jnum (specTotalRevenue batchAbsorb))) :=
  ⟨by decide, by decide, by decide⟩

/-- C3 (amended): currency sums accumulate in IEEE-754 binary64 floating
point (each stored decimal converted by `float(...)`, each addition rounding
to the nearest double), not in exact decimal arithmetic; rounding to two
decimal places is still applied only at the output field, never on the
intermediate sums.  On the spec's test batch `[33.333, 33.333, 33.334]` (all
converted) the float error is not observable: `total_revenue` is exactly
`100.00`, agreeing with the exact-decimal reference. -/
theorem C3_float_accumulation :
    (∀ items now, List.lookup "total_revenue" (apiMetricsBody items now) =
        some (JVal.leaf (JLeaf.jnum (pyRound2 (totalRevenueRaw items))))) ∧
    pyRound2 (totalRevenueRaw batchRounding) = ⟨100, 1⟩ ∧
    specTotalRevenue batchRounding = ⟨100, 1⟩ :=
  ⟨fun _ _ => rfl, by decide, by decide⟩

/-- C4: the claim that aggregation is order-independent in all snapshot
fields is false on the code: float addition is commutative but not
associative, and `sum` folds in list order.  For the batch
`[10^15, 0.04, 0.04]` and its rotation `[0.04, 0.04, 10^15]` — a permutation
— the snapshots differ: big-value-first absorbs both cents
(`total_revenue = 10^15.00`), while cents-first accumulates `0.08`, which
survives (`total_revenue = 10^15 + 0.125` after rounding, printed as
`...0.12`). -/
theorem C4_counterexample :
    batchOrderA.Perm batchOrderB ∧
    apiMetricsBody batchOrderA "T" ≠ apiMetricsBody batchOrderB "T" :=
  ⟨by decide, by decide⟩

/-- C4 (amended): the count-derived snapshot fields are order-independent:
for any permutation of the batch, `total_sessions`, `conversions` and
`conversion_rate` are unchanged.  The revenue-derived fields
(`total_revenue`, `avg_cart_value`) are not, as the counterexample shows. -/
theorem C4_count_fields_order_independent (B P : List Item) (now : String)
    (h : B.Perm P) :
    List.lookup "total_sessions" (apiMetricsBody B now) =
      List.lookup "total_sessions" (apiMetricsBody P now) ∧
    List.lookup "conversions" (apiMetricsBody B now) =
      List.lookup "conversions" (apiMetricsBody P now) ∧
    List.lookup "conversion_rate" (apiMetricsBody B now) =
      List.lookup "conversion_rate" (apiMetricsBody P now) := by
  have hl : B.length = P.length := h.length_eq
  have hc : conversions B = conversions P := h.countP_eq convertedTruthy
  have hr : conversionRateRaw B = conversionRateRaw P := by
    unfold conversionRateRaw
    rw [hl, hc]
  refine ⟨?_, ?_, ?_⟩
  · show some (JVal.leaf (JLeaf.jnum ⟨B.length, 1⟩)) =
      some (JVal.leaf (JLeaf.jnum ⟨P.length, 1⟩))
    rw [hl]
  · show some (JVal.leaf (JLeaf.jnum ⟨conversions B, 1⟩)) =
      some (JVal.leaf (JLeaf.jnum ⟨conversions P, 1⟩))
    rw [hc]
  · show some (JVal.leaf (JLeaf.jnum (pyRound2 (conversionRateRaw B)))) =
      some (JVal.leaf (JLeaf.jnum (pyRound2 (conversionRateRaw P))))
    rw [hr]

/-- C4 witness: the amended theorem applied to the concrete permuted batches. -/
theorem C4_witness :
    List.lookup "total_sessions" (apiMetricsBody batchOrderA "T") =
      List.lookup "total_sessions" (apiMetricsBody batchOrderB "T") ∧
    List.lookup "conversions" (apiMetricsBody batchOrderA "T") =
      List.lookup "conversions" (apiMetricsBody batchOrderB "T") ∧
    List.lookup "conversion_rate" (apiMetricsBody batchOrderA "T") =
      List.lookup "conversion_rate" (apiMetricsBody batchOrderB "T") :=
  C4_count_fields_order_independent batchOrderA batchOrderB "T" (by decide)

/-- C8: `GET /customer?customer_id=cid` (for a non-empty `cid` — the
handler's Python truthiness test rejects the empty string with a 400) returns
status 200 with exactly the store's records for that partition key: the
`sessions` array lists `dynamoQuery store cid`, which is a permutation of the
records whose `customer_id` equals `cid`, sorted by `session_timestamp`
ascending; for a customer with no records the response is still a 200 with an
empty `sessions` array, not an error. -/
theorem C8_sessions_for_customer (store : List Item) (cid : String)
    (scanf : Nat → Except String (List Item)) (inv : Except String String)
    (now : String) (hcid : cid ≠ "") :
    Api.lambda_handler ⟨some "GET", some "/customer", some [("customer_id", cid)]⟩
        ⟨fun c => .ok (dynamoQuery store c), scanf, inv, now⟩ =
      ⟨200, Api.jsonHeaders,
        [("customer_id", JVal.leaf (JLeaf.jstr cid)),
         ("sessions", JVal.arr ((dynamoQuery store cid).map itemRecord)),
         ("total_sessions", JVal.leaf (JLeaf.jnum ⟨(dynamoQuery store cid).length, 1⟩))]⟩ ∧
    (dynamoQuery store cid).Perm (store.filter (fun it => it.customer_id = cid)) ∧
    (dynamoQuery store cid).Pairwise
      (fun a b => a.session_timestamp ≤ b.session_timestamp) ∧
    ((∀ it ∈ store, ¬ it.customer_id = cid) → dynamoQuery store cid = []) := by
  refine ⟨?_, ?_, ?_, ?_⟩
  · unfold Api.lambda_handler Api.getParam
    simp [hcid]
  · exact sortTs_perm _
  · exact (sortTs_pairwise _).imp (fun hab => by
      simpa [tsLe, decide_eq_true_eq] using hab)
  · intro hnone
    unfold dynamoQuery
    rw [List.filter_eq_nil_iff.mpr (by
      intro it hit
      simpa using hnone it hit)]
    rfl

/-- C8 witness: the theorem at a concrete store in which customer `c1` has
two sessions stored out of timestamp order. -/
theorem C8_witness :
    Api.lambda_handler ⟨some "GET", some "/customer", some [("customer_id", "c1")]⟩
        ⟨fun c => .ok (dynamoQuery storeSample c), fun _ => .ok [], .ok "r", "T"⟩ =
      ⟨200, Api.jsonHeaders,
        [("customer_id", JVal.leaf (JLeaf.jstr "c1")),
         ("sessions", JVal.arr ((dynamoQuery storeSample "c1").map itemRecord)),
         ("total_sessions",
          JVal.leaf (JLeaf.jnum ⟨(dynamoQuery storeSample "c1").length, 1⟩))]⟩ :=
  (C8_sessions_for_customer storeSample "c1" (fun _ => .ok []) (.ok "r") "T"
    (by decide)).1

/-- C9: for every input event and every behaviour of the collaborators, the
API handler returns a response (it never propagates an exception: the model
is a total function, mirroring the handler-wide try/except) whose status code
is one of 200, 202, 400, 404, 500, and every 500 response carries a body of
the shape `{"error": msg}`. -/
theorem C9_response_envelope (ev : Api.Event) (deps : Api.Deps) :
    ((Api.lambda_handler ev deps).statusCode = 200 ∨
     (Api.lambda_handler ev deps).statusCode = 202 ∨
     (Api.lambda_handler ev deps).statusCode = 400 ∨
     (Api.lambda_handler ev deps).statusCode = 404 ∨
     (Api.lambda_handler ev deps).statusCode = 500) ∧
    ((Api.lambda_handler ev deps).statusCode = 500 →
      ∃ msg, (Api.lambda_handler ev deps).body =
        [("error", JVal.leaf (JLeaf.jstr msg))]) := by
  unfold Api.lambda_handler
  dsimp only
  constructor
  · repeat' split
    all_goals simp [err500]
  · repeat' split
    all_goals intro h
    all_goals first
      | exact ⟨_, rfl⟩
      | simp at h

/-- C9 witness: with the store unreachable, `GET /metrics` is answered by a
500 whose body is the error object. -/
theorem C9_witness :
    ∃ msg, (Api.lambda_handler metricsEvent failingApiDeps).body =
      [("error", JVal.leaf (JLeaf.jstr msg))] :=
  (C9_response_envelope metricsEvent failingApiDeps).2 rfl
